import Mathlib

/-!
Shallow embedding of the flight-state derivation pipeline of the
Leader Homecoming page (src/src/app/page.tsx): the flight selector,
the derived-state builder, the region heuristic, the haversine
distance, the progress fraction and the ETA estimator.

JavaScript numbers that only take part in comparisons and exact
arithmetic (coordinates, altitudes, velocities as delivered by the
feed) are modelled as rationals; the trigonometric geo math is
modelled over the reals.  Nullable feed fields are `Option`; the
JavaScript truthiness tests the code performs on them (`lat && lon`,
`state[1] ? ... : ""`, `baroAltitude ? ... : 0`) are modelled
explicitly, so a numeric 0 is falsy exactly as in the source.
-/

/-- JavaScript truthiness of a nullable number: `null`/`undefined` and `0`
are falsy, every other value is truthy.  Mirrors tests such as
`lat && lon` in `fetchFlightData`. -/
def numTruthy : Option ℚ → Bool
  | none => false
  | some v => v != 0

/-- Character-list test: is `pat` an initial segment of the second list?
Model of the list part of JavaScript `String.startsWith`. -/
def listIsPrefix : List Char → List Char → Bool
  | [], _ => true
  | _ :: _, [] => false
  | a :: as, b :: bs => a == b && listIsPrefix as bs

/-- Does `pat` occur as a contiguous run inside the list?  Model of the
list part of JavaScript `String.includes`. -/
def hasSubstring (pat : List Char) : List Char → Bool
  | [] => pat.isEmpty
  | c :: rest => listIsPrefix pat (c :: rest) || hasSubstring pat rest

/-- JavaScript `s.includes(pat)` on the underlying character lists. -/
def strContains (s pat : String) : Bool :=
  hasSubstring pat.data s.data

/-- JavaScript `s.startsWith(pat)` on the underlying character lists. -/
def strStartsWith (s pat : String) : Bool :=
  listIsPrefix pat.data s.data

/-- JavaScript `s.trim()`: strip whitespace from both ends. -/
def jsTrim (s : String) : String :=
  ⟨((s.data.dropWhile Char.isWhitespace).reverse.dropWhile Char.isWhitespace).reverse⟩

/-- One entry of the OpenSky bulk `states` array, restricted to the
fields the page reads: `[icao24, callsign, _, _, _, longitude, latitude,
baro_altitude, on_ground, velocity, ...]` (indices 0, 1, 5, 6, 7, 8, 9). -/
structure RawAircraftState where
  icao24 : String
  callsign : Option String
  lon : Option ℚ
  lat : Option ℚ
  baroAltitude : Option ℚ
  onGround : Bool
  velocity : Option ℚ
deriving DecidableEq

/-- `const callsign = state[1] ? state[1].trim() : ""` — the trimmed
callsign with a falsy (absent or empty) callsign replaced by `""`. -/
def trimmedCallsign : Option String → String
  | none => ""
  | some s => if s = "" then "" else jsTrim s

/-- `altitude > 6000` in JavaScript, where a `null` altitude coerces to 0
and therefore fails the comparison. -/
def altAbove6000 (a : Option ℚ) : Bool :=
  decide (6000 < a.getD 0)

/-- The rule-1 candidate filter of the selector loop:
`!onGround && lat && lon && altitude > 6000`. -/
def passesFilter (s : RawAircraftState) : Bool :=
  !s.onGround && numTruthy s.lat && numTruthy s.lon && altAbove6000 s.baroAltitude

/-- Rule-2 test: `callsign.includes("BG202") || callsign.includes("BBC202")`. -/
def exactMatch (s : RawAircraftState) : Bool :=
  strContains (trimmedCallsign s.callsign) "BG202" ||
    strContains (trimmedCallsign s.callsign) "BBC202"

/-- Rule-3 test: `callsign.startsWith("BBC")`. -/
def fallbackMatch (s : RawAircraftState) : Bool :=
  strStartsWith (trimmedCallsign s.callsign) "BBC"

/-- A record that passes the rule-1 filter and the rule-2 exact test. -/
def exactCandidate (s : RawAircraftState) : Bool :=
  passesFilter s && exactMatch s

/-- A record that passes the rule-1 filter and the rule-3 fallback test. -/
def fallbackCandidate (s : RawAircraftState) : Bool :=
  passesFilter s && fallbackMatch s

/-- The selection loop of `fetchFlightData` (page.tsx lines 136-157),
with `target` playing the role of the mutable `targetFlight` variable:
on an exact match the loop breaks immediately with that record; a
fallback match is latched only while `targetFlight` is still null. -/
def selectLoop : List RawAircraftState → Option RawAircraftState → Option RawAircraftState
  | [], target => target
  | s :: rest, target =>
    if passesFilter s then
      if exactMatch s then some s
      else if fallbackMatch s && target.isNone then selectLoop rest (some s)
      else selectLoop rest target
    else selectLoop rest target

/-- The flight selector: run the scan with `targetFlight` initially null. -/
def selectTrackedFlight (states : List RawAircraftState) : Option RawAircraftState :=
  selectLoop states none

/-- `getCurrentRegion` (page.tsx lines 67-79): longitude-bucket region
label, with the leading JavaScript truthiness guard `if (!lat || !lon)
return "Unknown"`. -/
def getCurrentRegion (lat lon : ℚ) : String :=
  if lat = 0 ∨ lon = 0 then "Unknown"
  else if lon < 10 then "Western Europe"
  else if lon < 30 then "Eastern Europe"
  else if lon < 45 then "Turkey/Middle East"
  else if lon < 60 then "Iran"
  else if lon < 70 then "Central Asia"
  else if lon < 80 then "Pakistan"
  else if lon < 88 then "India"
  else "Bangladesh"

/-- A named waypoint of the static reference route. -/
structure Waypoint where
  name : String
  lat : ℚ
  lon : ℚ
  region : String
deriving DecidableEq

/-- The static waypoint list of the page (page.tsx lines 49-64). -/
def waypoints : List Waypoint :=
  [⟨"London", 51.47, -0.4543, "United Kingdom"⟩,
   ⟨"Brussels", 50.8, 4.3, "Belgium"⟩,
   ⟨"Munich", 48.1, 11.6, "Germany"⟩,
   ⟨"Vienna", 48.2, 16.4, "Austria"⟩,
   ⟨"Istanbul", 41.0, 29.0, "Turkey"⟩,
   ⟨"Ankara", 39.9, 32.8, "Turkey"⟩,
   ⟨"Tehran", 35.7, 51.4, "Iran"⟩,
   ⟨"Mashhad", 36.3, 59.6, "Iran"⟩,
   ⟨"Kabul", 34.5, 69.2, "Afghanistan"⟩,
   ⟨"Islamabad", 33.7, 73.1, "Pakistan"⟩,
   ⟨"Lahore", 31.5, 74.3, "Pakistan"⟩,
   ⟨"Delhi", 28.6, 77.2, "India"⟩,
   ⟨"Kolkata", 22.6, 88.4, "India"⟩,
   ⟨"Dhaka", 23.8103, 90.4125, "Bangladesh"⟩]

/-- Error message thrown on a non-success HTTP status (page.tsx line 116). -/
def fetchFailureMessage : String := "Failed to fetch flight data"

/-- Error message set when the feed returns no states (page.tsx lines 122-124). -/
def emptyFeedMessage : String :=
  "No Biman Bangladesh flights currently tracked - BG202 may not be in the air"

/-- Error message set when the scan finds no matching flight
(page.tsx lines 161-163). -/
def noMatchMessage : String :=
  "BG202 not currently in flight - Flight may be scheduled later"

/-- Sample feed record: airborne at 10000 m with coordinates and the
exact callsign "BG202" (padded as the feed pads callsigns). -/
def bg202Rec : RawAircraftState :=
  ⟨"ac1", some "BG202  ", some 10, some 48, some 10000, false, some 250⟩

/-- Sample feed record: airborne carrier-code flight "BBC777" at cruise
altitude — a fallback candidate, not an exact match. -/
def bbc777Rec : RawAircraftState :=
  ⟨"ac2", some "BBC777 ", some 20, some 45, some 9000, false, some 240⟩

/-- Sample feed record: airborne carrier-code flight "BBC303" at cruise
altitude — a fallback candidate, not an exact match. -/
def bbc303Rec : RawAircraftState :=
  ⟨"ac3", some "BBC303", some 30, some 40, some 8000, false, some 230⟩

/-- Sample feed record: a carrier-code flight that is on the ground. -/
def groundRec : RawAircraftState :=
  ⟨"ac4", some "BBC901", some 12, some 50, some 7000, true, some 10⟩

/-- Sample feed record: an airborne carrier-code flight below 6000 m. -/
def lowAltRec : RawAircraftState :=
  ⟨"ac5", some "BBC902", some 14, some 49, some 3000, false, some 150⟩

/-- Sample feed record: airborne, both coordinates present and nonzero,
barometric altitude exactly 6000 m. -/
def alt6000Rec : RawAircraftState :=
  ⟨"ac6", some "BBC903", some 16, some 47, some 6000, false, some 200⟩

/-- Sample feed record: an exact-callsign cruise-altitude record whose
latitude is the number 0. -/
def zeroLatRec : RawAircraftState :=
  ⟨"ac7", some "BG202", some 11, some 0, some 10000, false, some 250⟩

/-- Two-argument arctangent with the JavaScript `Math.atan2(y, x)`
branch structure.  In this development it is only ever applied to
non-negative arguments (square roots). -/
noncomputable def atan2 (y x : ℝ) : ℝ :=
  if 0 < x then Real.arctan (y / x)
  else if x < 0 ∧ 0 ≤ y then Real.arctan (y / x) + Real.pi
  else if x < 0 ∧ y < 0 then Real.arctan (y / x) - Real.pi
  else if x = 0 ∧ 0 < y then Real.pi / 2
  else if x = 0 ∧ y < 0 then -(Real.pi / 2)
  else 0

/-- The intermediate value `a` of `calculateDistance` (page.tsx lines
91-96): `sin(dLat/2)^2 + cos(lat1 rad) * cos(lat2 rad) * sin(dLon/2)^2`
with `dLat = (lat2-lat1)*pi/180` and `dLon = (lon2-lon1)*pi/180`. -/
noncomputable def haversineA (lat1 lon1 lat2 lon2 : ℝ) : ℝ :=
  Real.sin ((lat2 - lat1) * Real.pi / 180 / 2) *
      Real.sin ((lat2 - lat1) * Real.pi / 180 / 2) +
    Real.cos (lat1 * Real.pi / 180) * Real.cos (lat2 * Real.pi / 180) *
      Real.sin ((lon2 - lon1) * Real.pi / 180 / 2) *
      Real.sin ((lon2 - lon1) * Real.pi / 180 / 2)

/-- `calculateDistance` (page.tsx lines 82-99): haversine great-circle
distance in km, `R * c` with `R = 6371` and
`c = 2 * atan2(sqrt(a), sqrt(1 - a))`. -/
noncomputable def calculateDistance (lat1 lon1 lat2 lon2 : ℝ) : ℝ :=
  6371 * (2 * atan2 (Real.sqrt (haversineA lat1 lon1 lat2 lon2))
      (Real.sqrt (1 - haversineA lat1 lon1 lat2 lon2)))

/-- Departure latitude (London Heathrow, page.tsx line 45). -/
def departureLat : ℝ := 51.47

/-- Departure longitude (London Heathrow, page.tsx line 45). -/
def departureLon : ℝ := -0.4543

/-- Arrival latitude (Dhaka, page.tsx line 46). -/
def arrivalLat : ℝ := 23.8103

/-- Arrival longitude (Dhaka, page.tsx line 46). -/
def arrivalLon : ℝ := 90.4125

/-- `totalDistance` of the progress computation (page.tsx lines 189-194):
haversine distance from departure to arrival. -/
noncomputable def totalDistance : ℝ :=
  calculateDistance departureLat departureLon arrivalLat arrivalLon

/-- The progress fraction of the builder (page.tsx lines 195-201):
`Math.min(distanceFromDeparture / totalDistance, 1)`. -/
noncomputable def progressFraction (lat lon : ℝ) : ℝ :=
  min (calculateDistance departureLat departureLon lat lon / totalDistance) 1

/-- The display model set by `setFlightData` (the `FlightData` interface,
page.tsx lines 12-22). -/
structure FlightData where
  currentLat : Option ℚ
  currentLon : Option ℚ
  altitude : ℤ
  speed : ℤ
  progress : ℝ
  currentRegion : String
  isLive : Bool
  callsign : Option String
  onGround : Option Bool

/-- JavaScript `Math.round` on a rational: floor of `x + 1/2`. -/
def jsRoundQ (q : ℚ) : ℤ := ⌊q + 1 / 2⌋

/-- JavaScript `Math.round` on a real: floor of `x + 1/2`. -/
noncomputable def jsRound (x : ℝ) : ℤ := ⌊x + 1 / 2⌋

/-- `callsign?.trim() || "Unknown"` (page.tsx line 211): the trimmed
callsign with absent or all-whitespace callsigns replaced by "Unknown". -/
def callsignDisplay : Option String → String
  | none => "Unknown"
  | some s => if jsTrim s = "" then "Unknown" else jsTrim s

/-- The initial React state (page.tsx lines 25-33). -/
def initialFlightData : FlightData :=
  { currentLat := none
    currentLon := none
    altitude := 0
    speed := 0
    progress := 0
    currentRegion := "Searching..."
    isLive := false
    callsign := none
    onGround := none }

/-- The `setFlightData` record built from a selected flight (page.tsx
lines 182-213): altitude and speed converted with JavaScript truthiness
fallbacks, progress from the haversine ratio, region from the longitude
buckets, `isLive` set to true. -/
noncomputable def buildFlightData (t : RawAircraftState) : FlightData :=
  { currentLat := t.lat
    currentLon := t.lon
    altitude := if numTruthy t.baroAltitude
      then jsRoundQ (t.baroAltitude.getD 0 * 3.28084) else 0
    speed := if numTruthy t.velocity
      then jsRoundQ (t.velocity.getD 0 * 2.23694) else 0
    progress := progressFraction ((t.lat.getD 0 : ℚ) : ℝ) ((t.lon.getD 0 : ℚ) : ℝ)
    currentRegion := getCurrentRegion (t.lat.getD 0) (t.lon.getD 0)
    isLive := true
    callsign := some (callsignDisplay t.callsign)
    onGround := some t.onGround }

/-- Outcome of one feed request: a thrown fetch failure, or a parsed
`states` list (empty when the feed has no aircraft in the region). -/
inductive FetchResult where
  | failure : FetchResult
  | success : List RawAircraftState → FetchResult

/-- One poll cycle of `fetchFlightData` acting on the stored
`FlightData` (page.tsx lines 102-233): on failure, empty feed, no
selected flight, or a selected flight with falsy coordinates the stored
state is left unchanged; otherwise the state is replaced wholesale by
the built record. -/
noncomputable def pollStep (fr : FetchResult) (fd : FlightData) : FlightData :=
  match fr with
  | FetchResult.failure => fd
  | FetchResult.success states =>
    if states.isEmpty then fd
    else
      match selectTrackedFlight states with
      | none => fd
      | some t =>
        if numTruthy t.lat && numTruthy t.lon then buildFlightData t else fd

/-- The flight states the component can hold: the initial state and
everything reachable from it by poll cycles. -/
inductive ReachableState : FlightData → Prop where
  | init : ReachableState initialFlightData
  | step (fr : FetchResult) {fd : FlightData} :
      ReachableState fd → ReachableState (pollStep fr fd)

/-- The hour/minute split of `calculateETA` (page.tsx lines 257-258):
`hours = Math.floor(h)`, `minutes = Math.round((h - hours) * 60)`. -/
noncomputable def etaSplit (hoursRemaining : ℝ) : ℤ × ℤ :=
  (⌊hoursRemaining⌋, jsRound ((hoursRemaining - (⌊hoursRemaining⌋ : ℤ)) * 60))

/-- `calculateETA` (page.tsx lines 243-261): `{0, 0}` when the current
latitude is falsy or the speed is 0, otherwise the haversine distance to
the arrival point divided by the speed in km/h, split into whole hours
and rounded minutes. -/
noncomputable def calculateETA (fd : FlightData) : ℤ × ℤ :=
  if !numTruthy fd.currentLat || fd.speed == 0 then (0, 0)
  else
    etaSplit (calculateDistance ((fd.currentLat.getD 0 : ℚ) : ℝ)
        ((fd.currentLon.getD 0 : ℚ) : ℝ) arrivalLat arrivalLon /
      ((fd.speed : ℝ) * 1.60934))

/-- A live state produced by one successful poll cycle on a feed that
contains a fallback candidate followed by the exact flight. -/
noncomputable def liveStateExample : FlightData :=
  pollStep (FetchResult.success [bbc777Rec, bg202Rec]) initialFlightData

/-! ## Theorems -/

theorem numTruthy_false_iff (o : Option ℚ) :
    numTruthy o = false ↔ o = none ∨ o = some 0 := by
  cases o with
  | none => simp [numTruthy]
  | some v => simp [numTruthy]

theorem numTruthy_ne_none {o : Option ℚ} (h : numTruthy o = true) : o ≠ none := by
  cases o with
  | none => simp [numTruthy] at h
  | some v => simp

theorem numTruthy_ne_zero {o : Option ℚ} (h : numTruthy o = true) : o ≠ some 0 := by
  cases o with
  | none => simp [numTruthy] at h
  | some v =>
    simp [numTruthy] at h
    simp [h]

theorem selectLoop_of_exact (states : List RawAircraftState) :
    ∀ target : Option RawAircraftState,
      (∃ s ∈ states, exactCandidate s = true) →
      selectLoop states target = states.find? exactCandidate := by
  induction states with
  | nil => intro target h; simp at h
  | cons s rest ih =>
    intro target h
    by_cases hp : passesFilter s = true
    · by_cases he : exactMatch s = true
      · have hc : exactCandidate s = true := by
          simp [exactCandidate, hp, he]
        rw [List.find?_cons_of_pos _ hc]
        simp [selectLoop, hp, he]
      · have he' : exactMatch s = false := Bool.not_eq_true _ |>.mp he
        have hc : exactCandidate s = false := by
          simp [exactCandidate, he']
        have hrest : ∃ x ∈ rest, exactCandidate x = true := by
          rcases h with ⟨x, hx, hxc⟩
          rcases List.mem_cons.mp hx with rfl | hmem
          · rw [hc] at hxc; cases hxc
          · exact ⟨x, hmem, hxc⟩
        rw [List.find?_cons_of_neg _ (by simp [hc])]
        simp only [selectLoop, hp, he', if_true, if_false, Bool.false_eq_true]
        split
        · exact ih _ hrest
        · exact ih _ hrest
    · have hp' : passesFilter s = false := Bool.not_eq_true _ |>.mp hp
      have hc : exactCandidate s = false := by
        simp [exactCandidate, hp']
      have hrest : ∃ x ∈ rest, exactCandidate x = true := by
        rcases h with ⟨x, hx, hxc⟩
        rcases List.mem_cons.mp hx with rfl | hmem
        · rw [hc] at hxc; cases hxc
        · exact ⟨x, hmem, hxc⟩
      rw [List.find?_cons_of_neg _ (by simp [hc])]
      simp only [selectLoop, hp', if_false, Bool.false_eq_true]
      exact ih _ hrest

theorem selectLoop_latched (states : List RawAircraftState) :
    ∀ t : RawAircraftState, (∀ s ∈ states, exactCandidate s = false) →
      selectLoop states (some t) = some t := by
  induction states with
  | nil => intro t _; rfl
  | cons s rest ih =>
    intro t h
    by_cases hp : passesFilter s = true
    · have he : exactMatch s = false := by
        have := h s (List.mem_cons_self s rest)
        simp [exactCandidate, hp] at this
        exact this
      simp only [selectLoop, hp, he, if_true, if_false, Bool.false_eq_true,
        Option.isNone_some, Bool.and_false]
      exact ih t (fun x hx => h x (List.mem_cons_of_mem s hx))
    · have hp' : passesFilter s = false := Bool.not_eq_true _ |>.mp hp
      simp only [selectLoop, hp', if_false, Bool.false_eq_true]
      exact ih t (fun x hx => h x (List.mem_cons_of_mem s hx))

theorem selectLoop_no_exact (states : List RawAircraftState)
    (h : ∀ s ∈ states, exactCandidate s = false) :
    selectLoop states none = states.find? fallbackCandidate := by
  induction states with
  | nil => rfl
  | cons s rest ih =>
    have htail : ∀ x ∈ rest, exactCandidate x = false :=
      fun x hx => h x (List.mem_cons_of_mem s hx)
    by_cases hp : passesFilter s = true
    · have he : exactMatch s = false := by
        have := h s (List.mem_cons_self s rest)
        simp [exactCandidate, hp] at this
        exact this
      by_cases hf : fallbackMatch s = true
      · have hfc : fallbackCandidate s = true := by
          simp [fallbackCandidate, hp, hf]
        rw [List.find?_cons_of_pos _ hfc]
        simp only [selectLoop, hp, he, hf, if_true, if_false, Bool.false_eq_true,
          Option.isNone_none, Bool.and_true]
        exact selectLoop_latched rest s htail
      · have hf' : fallbackMatch s = false := Bool.not_eq_true _ |>.mp hf
        have hfc : fallbackCandidate s = false := by
          simp [fallbackCandidate, hf']
        rw [List.find?_cons_of_neg _ (by simp [hfc])]
        simp only [selectLoop, hp, he, hf', if_true, if_false, Bool.false_eq_true,
          Bool.false_and]
        exact ih htail
    · have hp' : passesFilter s = false := Bool.not_eq_true _ |>.mp hp
      have hfc : fallbackCandidate s = false := by
        simp [fallbackCandidate, hp']
      rw [List.find?_cons_of_neg _ (by simp [hfc])]
      simp only [selectLoop, hp', if_false, Bool.false_eq_true]
      exact ih htail

theorem selectLoop_passes (states : List RawAircraftState) :
    ∀ (target : Option RawAircraftState) (t : RawAircraftState),
      (∀ a, target = some a → passesFilter a = true) →
      selectLoop states target = some t → passesFilter t = true := by
  induction states with
  | nil => intro target t h heq; exact h t heq
  | cons s rest ih =>
    intro target t h heq
    rw [selectLoop] at heq
    split at heq
    · rename_i hp
      split at heq
      · cases heq; exact hp
      · split at heq
        · exact ih _ t (fun a ha => by cases ha; exact hp) heq
        · exact ih _ t h heq
    · exact ih _ t h heq

/-- C1: a feed that contains an airborne, coordinate-bearing,
above-cruise-threshold record whose trimmed callsign contains "BG202" or
"BBC202" makes the selector return the first such record, ahead of any
fallback candidate, wherever the records sit in feed order. -/
theorem selectTrackedFlight_first_exact (states : List RawAircraftState)
    (h : ∃ s ∈ states, exactCandidate s = true) :
    selectTrackedFlight states = states.find? exactCandidate :=
  selectLoop_of_exact states none h

theorem selectTrackedFlight_first_exact_witness :
    selectTrackedFlight [bbc777Rec, bg202Rec] = some bg202Rec :=
  (selectTrackedFlight_first_exact [bbc777Rec, bg202Rec] (by decide)).trans (by decide)

/-- C2: with no exact-match record anywhere in the feed, the selector
returns the first rule-1-passing record whose trimmed callsign starts
with "BBC"; the first-match semantics of the scan means a latched
fallback is never replaced by a later fallback. -/
theorem selectTrackedFlight_first_fallback (states : List RawAircraftState)
    (h : ∀ s ∈ states, exactCandidate s = false) :
    selectTrackedFlight states = states.find? fallbackCandidate :=
  selectLoop_no_exact states h

theorem selectTrackedFlight_first_fallback_witness :
    selectTrackedFlight [bbc303Rec, bbc777Rec] = some bbc303Rec :=
  (selectTrackedFlight_first_fallback [bbc303Rec, bbc777Rec] (by decide)).trans (by decide)

/-- C3 counterexample: an airborne record with both coordinates present
and barometric altitude exactly 6000 m is excluded by the filter, so the
claimed biconditional (excluded iff on-ground, missing coordinate, or
altitude strictly below 6000) fails at this record. -/
theorem passesFilter_at_6000_counterexample :
    ¬ (passesFilter alt6000Rec = false ↔
        (alt6000Rec.onGround = true ∨ alt6000Rec.lat = none ∨ alt6000Rec.lon = none ∨
          alt6000Rec.baroAltitude.getD 0 < 6000)) := by decide

/-- C3 amended: the rule-1 filter excludes a record exactly when it is
on-ground, its latitude is absent or 0, its longitude is absent or 0, or
its barometric altitude (0 when absent) is at most 6000 m; in particular
a record at exactly 6000 m is excluded. -/
theorem passesFilter_excludes_iff (s : RawAircraftState) :
    passesFilter s = false ↔
      (s.onGround = true ∨ s.lat = none ∨ s.lat = some 0 ∨
        s.lon = none ∨ s.lon = some 0 ∨ s.baroAltitude.getD 0 ≤ 6000) := by
  rw [passesFilter, altAbove6000]
  simp only [Bool.and_eq_false_iff, Bool.not_eq_false', numTruthy_false_iff,
    decide_eq_false_iff_not, not_lt]
  tauto

/-- C6: the selector returns none on the empty feed and on any feed with
no rule-2 or rule-3 candidate, and the message shown for that outcome
differs from the message shown for a fetch failure. -/
theorem selectTrackedFlight_none_cases :
    selectTrackedFlight [] = none ∧
    (∀ states : List RawAircraftState,
      (∀ s ∈ states, exactCandidate s = false ∧ fallbackCandidate s = false) →
      selectTrackedFlight states = none) ∧
    noMatchMessage ≠ fetchFailureMessage ∧ emptyFeedMessage ≠ fetchFailureMessage := by
  refine ⟨rfl, ?_, by decide, by decide⟩
  intro states h
  have hfind := selectLoop_no_exact states (fun s hs => (h s hs).1)
  rw [selectTrackedFlight, hfind, List.find?_eq_none]
  intro x hx
  simp [(h x hx).2]

theorem selectTrackedFlight_none_cases_witness :
    selectTrackedFlight [groundRec, lowAltRec, alt6000Rec] = none :=
  selectTrackedFlight_none_cases.2.1 [groundRec, lowAltRec, alt6000Rec] (by decide)

/-- C7 counterexample: two positions with the same longitude but
different latitudes get different region labels, because a latitude of 0
triggers the "Unknown" guard. -/
theorem getCurrentRegion_depends_on_lat :
    getCurrentRegion 0 5 ≠ getCurrentRegion 10 5 := by decide

/-- C7 amended: away from the zero-latitude guard, the region label is a
function of longitude alone, following the fixed ascending exclusive
upper-bound thresholds, with the unmatched bucket being the final route
region "Bangladesh"; a latitude of 0 yields "Unknown" for every
longitude. -/
theorem getCurrentRegion_lon_buckets :
    (∀ lat₁ lat₂ lon : ℚ, lat₁ ≠ 0 → lat₂ ≠ 0 →
      getCurrentRegion lat₁ lon = getCurrentRegion lat₂ lon) ∧
    (∀ lon : ℚ, getCurrentRegion 0 lon = "Unknown") ∧
    getCurrentRegion 50 5 = "Western Europe" ∧
    getCurrentRegion 40 65 = "Central Asia" ∧
    getCurrentRegion 24 91 = "Bangladesh" ∧
    (waypoints.getLast?.map Waypoint.region) = some "Bangladesh" := by
  refine ⟨?_, ?_, by decide, by decide, by decide, by decide⟩
  · intro lat₁ lat₂ lon h1 h2
    simp [getCurrentRegion, h1, h2]
  · intro lon
    simp [getCurrentRegion]

theorem getCurrentRegion_lon_buckets_witness :
    getCurrentRegion 3 42 = getCurrentRegion 7 42 :=
  getCurrentRegion_lon_buckets.1 3 7 42 (by decide) (by decide)

/-- C10: the selector never returns a record whose latitude or longitude
is the number 0, whatever its callsign and altitude, because the
truthiness coordinate check treats 0 like an absent field. -/
theorem selectTrackedFlight_zero_coord_never (states : List RawAircraftState)
    (s : RawAircraftState) (_hmem : s ∈ states)
    (h0 : s.lat = some 0 ∨ s.lon = some 0) :
    selectTrackedFlight states ≠ some s := by
  intro hsel
  have hp := selectLoop_passes states none s (fun a ha => nomatch ha) hsel
  rw [passesFilter] at hp
  simp only [Bool.and_eq_true] at hp
  rcases h0 with h | h
  · have := hp.1.1.2
    rw [h] at this
    simp [numTruthy] at this
  · have := hp.1.2
    rw [h] at this
    simp [numTruthy] at this

theorem selectTrackedFlight_zero_coord_never_witness :
    selectTrackedFlight [zeroLatRec] ≠ some zeroLatRec :=
  selectTrackedFlight_zero_coord_never [zeroLatRec] zeroLatRec (by decide) (Or.inl rfl)

theorem atan2_nonneg {y x : ℝ} (hy : 0 ≤ y) (hx : 0 ≤ x) : 0 ≤ atan2 y x := by
  rw [atan2]
  rcases hx.lt_or_eq with hx' | hx'
  · rw [if_pos hx']
    have h := Real.arctan_strictMono.monotone (div_nonneg hy hx)
    rwa [Real.arctan_zero] at h
  · have hx0 : x = 0 := hx'.symm
    subst hx0
    rw [if_neg (lt_irrefl 0), if_neg (by simp), if_neg (by simp)]
    rcases hy.lt_or_eq with hy' | hy'
    · rw [if_pos ⟨rfl, hy'⟩]
      have := Real.pi_pos
      linarith
    · have hy0 : y = 0 := hy'.symm
      subst hy0
      rw [if_neg (by simp), if_neg (by simp)]

theorem atan2_pos {y x : ℝ} (hy : 0 < y) (hx : 0 ≤ x) : 0 < atan2 y x := by
  rw [atan2]
  rcases hx.lt_or_eq with hx' | hx'
  · rw [if_pos hx']
    have h := Real.arctan_strictMono (div_pos hy hx')
    rwa [Real.arctan_zero] at h
  · have hx0 : x = 0 := hx'.symm
    subst hx0
    rw [if_neg (lt_irrefl 0), if_neg (by simp), if_neg (by simp),
      if_pos ⟨rfl, hy⟩]
    have := Real.pi_pos
    linarith

theorem calculateDistance_nonneg (lat1 lon1 lat2 lon2 : ℝ) :
    0 ≤ calculateDistance lat1 lon1 lat2 lon2 := by
  rw [calculateDistance]
  have h := atan2_nonneg (Real.sqrt_nonneg (haversineA lat1 lon1 lat2 lon2))
    (Real.sqrt_nonneg (1 - haversineA lat1 lon1 lat2 lon2))
  linarith

theorem haversineA_symm (lat1 lon1 lat2 lon2 : ℝ) :
    haversineA lat1 lon1 lat2 lon2 = haversineA lat2 lon2 lat1 lon1 := by
  unfold haversineA
  have h1 : (lat1 - lat2) * Real.pi / 180 / 2 = -((lat2 - lat1) * Real.pi / 180 / 2) := by
    ring
  have h2 : (lon1 - lon2) * Real.pi / 180 / 2 = -((lon2 - lon1) * Real.pi / 180 / 2) := by
    ring
  rw [h1, h2, Real.sin_neg, Real.sin_neg]
  ring

theorem haversineA_self (lat lon : ℝ) : haversineA lat lon lat lon = 0 := by
  unfold haversineA
  simp

/-- C9: the haversine distance is symmetric in its two geographic
points, and the distance from a point to itself is 0. -/
theorem calculateDistance_symm_self :
    (∀ lat1 lon1 lat2 lon2 : ℝ,
      calculateDistance lat1 lon1 lat2 lon2 = calculateDistance lat2 lon2 lat1 lon1) ∧
    (∀ lat lon : ℝ, calculateDistance lat lon lat lon = 0) := by
  constructor
  · intro lat1 lon1 lat2 lon2
    rw [calculateDistance, calculateDistance, haversineA_symm lat1 lon1 lat2 lon2]
  · intro lat lon
    rw [calculateDistance, haversineA_self, Real.sqrt_zero, sub_zero, Real.sqrt_one,
      atan2, if_pos one_pos]
    norm_num [Real.arctan_zero]

theorem haversineA_route_pos :
    0 < haversineA departureLat departureLon arrivalLat arrivalLon := by
  unfold haversineA departureLat departureLon arrivalLat arrivalLon
  have hpi := Real.pi_pos
  have hd : ((23.8103 : ℝ) - 51.47) * Real.pi / 180 / 2 =
      -(27.6597 * Real.pi / 360) := by
    have h : ((23.8103 : ℝ) - 51.47) = -27.6597 := by norm_num
    rw [h]; ring
  rw [hd, Real.sin_neg]
  have hsin : 0 < Real.sin (27.6597 * Real.pi / 360) := by
    apply Real.sin_pos_of_pos_of_lt_pi
    · positivity
    · calc 27.6597 * Real.pi / 360 = (27.6597 / 360) * Real.pi := by ring
        _ < 1 * Real.pi := by
            apply mul_lt_mul_of_pos_right ?_ hpi
            norm_num
        _ = Real.pi := one_mul _
  have hc1 : 0 < Real.cos (51.47 * Real.pi / 180) := by
    apply Real.cos_pos_of_mem_Ioo
    constructor
    · have h0 : (0 : ℝ) < 51.47 * Real.pi / 180 := by positivity
      linarith
    · calc 51.47 * Real.pi / 180 = (51.47 / 180) * Real.pi := by ring
        _ < (1 / 2) * Real.pi := by
            apply mul_lt_mul_of_pos_right ?_ hpi
            norm_num
        _ = Real.pi / 2 := by ring
  have hc2 : 0 < Real.cos (23.8103 * Real.pi / 180) := by
    apply Real.cos_pos_of_mem_Ioo
    constructor
    · have h0 : (0 : ℝ) < 23.8103 * Real.pi / 180 := by positivity
      linarith
    · calc 23.8103 * Real.pi / 180 = (23.8103 / 180) * Real.pi := by ring
        _ < (1 / 2) * Real.pi := by
            apply mul_lt_mul_of_pos_right ?_ hpi
            norm_num
        _ = Real.pi / 2 := by ring
  nlinarith [mul_pos hsin hsin, mul_pos hc1 hc2,
    mul_self_nonneg (Real.sin (((90.4125 : ℝ) - -0.4543) * Real.pi / 180 / 2))]

theorem totalDistance_pos : 0 < totalDistance := by
  rw [totalDistance, calculateDistance]
  have hy : 0 < Real.sqrt (haversineA departureLat departureLon arrivalLat arrivalLon) :=
    Real.sqrt_pos.mpr haversineA_route_pos
  have h := atan2_pos hy
    (Real.sqrt_nonneg (1 - haversineA departureLat departureLon arrivalLat arrivalLon))
  linarith

/-- C5: the total route distance is positive (the fixed departure and
arrival endpoints are distinct), and for every current position the
progress fraction `min(distanceFromDeparture / totalDistance, 1)`
computed by the builder lies in [0, 1]. -/
theorem progressFraction_mem_unit :
    0 < totalDistance ∧
    ∀ lat lon : ℝ, 0 ≤ progressFraction lat lon ∧ progressFraction lat lon ≤ 1 := by
  refine ⟨totalDistance_pos, ?_⟩
  intro lat lon
  constructor
  · rw [progressFraction]
    apply le_min
    · exact div_nonneg (calculateDistance_nonneg _ _ _ _) totalDistance_pos.le
    · norm_num
  · rw [progressFraction]
    exact min_le_right _ _

/-- C4: evaluation of the hour/minute split at 1.995 remaining hours
(fractional part 59.7 minutes): the code returns 1 hour and 60 minutes —
the minute component is 60, with no carry into the hour component. -/
theorem etaSplit_can_return_sixty : etaSplit (1.995 : ℝ) = (1, 60) := by
  have hf : ⌊(1.995 : ℝ)⌋ = 1 := by
    rw [Int.floor_eq_iff]
    constructor <;> norm_num
  unfold etaSplit jsRound
  rw [hf]
  have h2 : ((1.995 : ℝ) - ((1 : ℤ) : ℝ)) * 60 + 1 / 2 = 60.2 := by
    push_cast
    norm_num
  rw [h2]
  have hf2 : ⌊(60.2 : ℝ)⌋ = 60 := by
    rw [Int.floor_eq_iff]
    constructor <;> norm_num
  rw [hf2]

theorem pollStep_preserves_live_position (fr : FetchResult) (fd : FlightData)
    (ih : fd.isLive = true → fd.currentLat ≠ none ∧ fd.currentLon ≠ none) :
    (pollStep fr fd).isLive = true →
      (pollStep fr fd).currentLat ≠ none ∧ (pollStep fr fd).currentLon ≠ none := by
  cases fr with
  | failure => exact ih
  | success states =>
    by_cases he : states.isEmpty
    · simp only [pollStep, he, if_true]
      exact ih
    · have he' : states.isEmpty = false := Bool.not_eq_true _ |>.mp he
      cases hsel : selectTrackedFlight states with
      | none =>
        simp only [pollStep, he', Bool.false_eq_true, if_false, hsel]
        exact ih
      | some t =>
        by_cases hg : (numTruthy t.lat && numTruthy t.lon) = true
        · simp only [pollStep, he', Bool.false_eq_true, if_false, hsel, hg, if_true]
          intro _
          rw [Bool.and_eq_true] at hg
          exact ⟨numTruthy_ne_none hg.1, numTruthy_ne_none hg.2⟩
        · have hg' : (numTruthy t.lat && numTruthy t.lon) = false :=
            Bool.not_eq_true _ |>.mp hg
          simp only [pollStep, he', Bool.false_eq_true, if_false, hsel, hg']
          exact ih

/-- C8: in the initial component state and in every state reachable from
it by poll cycles, a true `isLive` flag implies both coordinates of the
position are present. -/
theorem reachable_isLive_position (fd : FlightData) (h : ReachableState fd) :
    fd.isLive = true → fd.currentLat ≠ none ∧ fd.currentLon ≠ none := by
  induction h with
  | init =>
    intro hl
    simp [initialFlightData] at hl
  | step fr hfd ih => exact pollStep_preserves_live_position fr _ ih

theorem reachable_isLive_position_witness :
    liveStateExample.currentLat ≠ none ∧ liveStateExample.currentLon ≠ none :=
  reachable_isLive_position liveStateExample
    (ReachableState.step (FetchResult.success [bbc777Rec, bg202Rec]) ReachableState.init)
    (by rfl)
